import Mathlib

/-!
Verification development for the makeSnapshot command-line tool (Go).

The tool drives a fixed six-stage sequence of REST calls against a vRA
platform to create a snapshot of a named virtual machine and then polls
for the platform's completion verdict.  This file gives a shallow
embedding of the pipeline found in the repository's root command file:

* the regex-based field extractions are modelled by dedicated executable
  matchers over `List Char` implementing Go's RE2 leftmost-first match
  semantics for the exact patterns appearing in the source (literals,
  the any-character metacharacter, bounded repetitions, lazy and greedy
  unbounded repetitions);
* each pipeline stage (`getBearerToken`, `getVirtualMachineResourceID`,
  `getSnapshotResourceActionID`, `sendSnapshotRequest`,
  `getRequestResultState`, `validateConfig`, `exitOnEmptyString`)
  becomes a pure function from the network interaction it observes to an
  `Except Abort` outcome, where `Abort.fatal` models `log.Fatalf`
  (process exit status 1) and `Abort.panicked` models a Go runtime panic
  (nil-pointer dereference or out-of-range slice index, process exit
  status 2);
* `rootCmd.Run` becomes `runPipeline`, which also records the list of
  HTTP requests the run issues, and the polling loop additionally
  records its sleep/poll event trace.

JSON decoding of the authentication response (Go `json.Unmarshal`) is
passed in as an explicit decoding function, so that theorems about the
handling of the decoded value do not depend on a particular JSON parser
model.  The interpolation of the machine name into the resource-lookup
regular expression is modelled literally except for the any-character
metacharacter, mirroring RE2 for names built from literal characters
and dots (the source interpolates the name unescaped).
-/

set_option maxRecDepth 100000

namespace MakeSnapshot

/-- Whitespace predicate of Go's unicode.IsSpace (the White_Space
property), used by strings.TrimSpace in exitOnEmptyString. -/
def goIsSpace (c : Char) : Bool :=
  c.toNat = 9 || c.toNat = 10 || c.toNat = 11 || c.toNat = 12 || c.toNat = 13 ||
  c.toNat = 32 || c.toNat = 0x85 || c.toNat = 0xA0 || c.toNat = 0x1680 ||
  (0x2000 ≤ c.toNat && c.toNat ≤ 0x200A) || c.toNat = 0x2028 || c.toNat = 0x2029 ||
  c.toNat = 0x202F || c.toNat = 0x205F || c.toNat = 0x3000

/-- Go strings.TrimSpace: drop leading and trailing White_Space characters. -/
def goTrimSpace (s : String) : String :=
  ⟨((s.data.dropWhile goIsSpace).reverse.dropWhile goIsSpace).reverse⟩

/-- Request body type of the authentication call (vrealizetypes.go). -/
structure GetBearerTokenRequest where
  Username : String
  Password : String
  Tenant : String
deriving DecidableEq, Repr

/-- Response body type of the authentication call (vrealizetypes.go). -/
structure GetBearerTokenResponse where
  Expires : String
  ID : String
  Tenant : String
deriving DecidableEq, Repr

/-- One position of a compiled regular-expression pattern consisting of
literal characters, the any-character metacharacter (which in RE2
matches every character except the newline), and a case-insensitive
literal (used only by the spec-modelled case-insensitive lookup). -/
inductive CharPat where
  | lit (c : Char)
  | any
  | ciLit (c : Char)
deriving DecidableEq, Repr

/-- Whether a single pattern position matches a character. -/
def charPatMatches : CharPat → Char → Bool
  | .lit c, d => c = d
  | .any, d => d ≠ '\n'
  | .ciLit c, d => c.toLower = d.toLower

/-- Whether a fixed-length pattern matches a prefix of the character list. -/
def patMatchesAt : List CharPat → List Char → Bool
  | [], _ => true
  | _ :: _, [] => false
  | p :: ps, c :: cs => charPatMatches p c && patMatchesAt ps cs

/-- Compile a regex literal as it appears in the source: every dot is
the any-character metacharacter, every other character matches itself.
The source regexes contain no other metacharacters outside explicit
repetition operators, which are modelled separately. -/
def regexLitPat (s : List Char) : List CharPat :=
  s.map (fun c => if c = '.' then CharPat.any else CharPat.lit c)

/-- Case-insensitive variant of regexLitPat, for the spec-modelled
case-insensitive lookup only. -/
def regexLitPatCI (s : List Char) : List CharPat :=
  s.map (fun c => if c = '.' then CharPat.any else CharPat.ciLit c)

/-- Leftmost-first scan: try the match attempt at every start position
from the left and return the first success, as Go's
Regexp.FindStringSubmatch does. -/
def scanFirst {α : Type} (tryAt : List Char → Option α) : List Char → Option α
  | [] => tryAt []
  | c :: cs =>
    match tryAt (c :: cs) with
    | some r => some r
    | none => scanFirst tryAt cs

/-- Lazy middle part: the shortest run of non-newline characters after
which the closing literal matches.  Models a lazy unbounded repetition
directly followed by a literal, returning the captured run and the
remainder after the closing literal. -/
def lazyMid (l2 : List Char) : List Char → Option (List Char × List Char)
  | [] => if l2.isPrefixOf ([] : List Char) then some ([], ([] : List Char).drop l2.length) else none
  | c :: cs =>
    if l2.isPrefixOf (c :: cs) then some ([], (c :: cs).drop l2.length)
    else if c = '\n' then none
    else (lazyMid l2 cs).map (fun p => (c :: p.1, p.2))

/-- First-success choice between two optional results, preferring the
left one. -/
def orElseO {β : Type} : Option β → Option β → Option β
  | some b, _ => some b
  | none, o => o

/-- Greedy middle part: the longest run of non-newline characters after
which the closing literal matches.  Models a greedy unbounded repetition
directly followed by a literal. -/
def greedyMid (l2 : List Char) : List Char → Option (List Char × List Char)
  | [] => if l2.isPrefixOf ([] : List Char) then some ([], ([] : List Char).drop l2.length) else none
  | c :: cs =>
    orElseO
      (if c = '\n' then none
       else (greedyMid l2 cs).map (fun p => (c :: p.1, p.2)))
      (if l2.isPrefixOf (c :: cs) then some ([], (c :: cs).drop l2.length)
       else none)

/-- Match attempt for a pattern of the form literal, lazy repetition,
literal, lazy repetition, literal anchored somewhere after the first
literal: scan forward for the middle literal and, with backtracking into
a longer first repetition, extract the second lazy repetition (the
capture group) closed by the final literal.  Models the action-lookup
regex after its leading literal. -/
def actionAux (l2 l3 : List Char) : List Char → Option (List Char)
  | [] => none
  | c :: cs =>
    orElseO
      (if l2.isPrefixOf (c :: cs) then ((lazyMid l3 ((c :: cs).drop l2.length)).map (fun p => p.1))
       else none)
      (if c = '\n' then none else actionAux l2 l3 cs)

/-! ### The regular expressions of the source, as literals -/

/-- Opening literal of the stateName poll-status regex. -/
def stateNameLit : List Char := "\"stateName\":\"".data

/-- Opening literal of the systemMessage regex of the authentication
error path. -/
def sysMsgLit1 : List Char := "\"systemMessage\":\"".data

/-- Closing literal of the systemMessage regex. -/
def sysMsgLit2 : List Char := "\",\"moreInfoUrl".data

/-- Opening literal of the h1 error-title regex. -/
def h1Lit1 : List Char := "<h1>".data

/-- Closing literal of the h1 error-title regex. -/
def h1Lit2 : List Char := "</h1>".data

/-- Opening literal of the snapshot-action regex. -/
def actionLit1 : List Char := "\"name\":\"Create VM Snapshot\"".data

/-- Middle literal of the snapshot-action regex. -/
def actionLit2 : List Char := "\"ACTION\",\"id\":\"".data

/-- Closing literal of the snapshot-action regex. -/
def actionLit3 : List Char := "\",".data

/-- Leading literal of the virtual-machine resource regex, up to the
36-character id capture group. -/
def vmLit1 : String := "\"@type\":\"CatalogResource\",\"id\":\""

/-- Middle literal of the virtual-machine resource regex, between the id
capture group and the 3-character name prefix: the icon id, the resource
type reference with id Infrastructure.Virtual and label Virtual Machine,
and the opening of the name field. -/
def vmLit2 : String := "\",\"iconId\":\"Infrastructure.CatalogItem.Machine.Virtual.vSphere\",\"resourceTypeRef\":\x7b\"id\":\"Infrastructure.Virtual\",\"label\":\"Virtual Machine\"\x7d,\"name\":\""

/-- Closing literal of the virtual-machine resource regex, directly
after the interpolated machine name: the closing quote of the name field
and the opening of the description field. -/
def vmLit3 : String := "\",\"description\""

/-- The compiled virtual-machine resource regex: leading literal, the
36-character id capture group, middle literal, the 3-character name
prefix, the interpolated machine name, closing literal.  Bounded
repetitions of the any-character metacharacter become runs of `.any`. -/
def vmPattern (machine : List Char) : List CharPat :=
  regexLitPat vmLit1.data ++ (List.replicate 36 CharPat.any ++ (regexLitPat vmLit2.data ++
    (List.replicate 3 CharPat.any ++ (regexLitPat machine ++ regexLitPat vmLit3.data))))

/-- Match attempt of the virtual-machine resource regex at one start
position: on success return the 36-character id capture group. -/
def vmTry (machine : List Char) (rest : List Char) : Option (List Char) :=
  if patMatchesAt (vmPattern machine) rest then
    some ((rest.drop vmLit1.length).take 36)
  else none

/-! ### The extraction functions -/

/-- Submatch 1 of the poll-status regex: the stateName field value, or
none when the body holds no match (in which case the source indexes the
nil submatch slice and panics). -/
def extractStateName (body : String) : Option String :=
  (scanFirst (fun t =>
    if stateNameLit.isPrefixOf t then
      ((lazyMid ['"'] (t.drop stateNameLit.length)).map (fun p => p.1))
    else none) body.data).map (fun g => ⟨g⟩)

/-- Submatch 2 of the systemMessage regex of the authentication error
path, or none when the body holds no match. -/
def extractSystemMessage (body : String) : Option String :=
  (scanFirst (fun t =>
    if sysMsgLit1.isPrefixOf t then
      ((greedyMid sysMsgLit2 (t.drop sysMsgLit1.length)).map (fun p => p.1))
    else none) body.data).map (fun g => ⟨g⟩)

/-- Submatch 1 of the h1 error-title regex used on unexpected HTTP
statuses of the resource, action and snapshot-request calls, or none
when the body holds no match. -/
def extractH1 (body : String) : Option String :=
  (scanFirst (fun t =>
    if h1Lit1.isPrefixOf t then
      ((greedyMid h1Lit2 (t.drop h1Lit1.length)).map (fun p => p.1))
    else none) body.data).map (fun g => ⟨g⟩)

/-- Submatch 1 of the snapshot-action regex: the id of the action named
Create VM Snapshot of kind ACTION, or none when the body holds no match. -/
def extractActionID (body : String) : Option String :=
  (scanFirst (fun t =>
    if actionLit1.isPrefixOf t then actionAux actionLit2 actionLit3 (t.drop actionLit1.length)
    else none) body.data).map (fun g => ⟨g⟩)

/-- Submatch 1 of the virtual-machine resource regex: the 36-character
resource id of the leftmost catalog entry whose serialized form matches
the pattern around the requested machine name, or none. -/
def findVMResourceID (machine : String) (body : String) : Option String :=
  (scanFirst (vmTry machine.data) body.data).map (fun g => ⟨g⟩)

/-- Spec-modelled case-insensitive variant of the resource lookup,
following the spec's words that the name may match optionally
case-insensitively: identical to findVMResourceID except that the
interpolated machine name is compared case-insensitively.  The program
itself registers no flag that selects this behaviour; the definition
exists to compare the spec's words with the code. -/
def findVMResourceID_ci (machine : String) (body : String) : Option String :=
  (scanFirst (fun rest =>
    if patMatchesAt
        (regexLitPat vmLit1.data ++ (List.replicate 36 CharPat.any ++ (regexLitPat vmLit2.data ++
          (List.replicate 3 CharPat.any ++ (regexLitPatCI machine.data ++ regexLitPat vmLit3.data)))))
        rest then
      some ((rest.drop vmLit1.length).take 36)
    else none) body.data).map (fun g => ⟨g⟩)

/-! ### Outcomes, configuration, network model -/

/-- A run-terminating event: log.Fatalf exits the process with status 1;
a Go runtime panic (nil-pointer dereference of a failed response, or an
out-of-range index into a nil submatch slice) exits with status 2. -/
inductive Abort where
  | fatal (msg : String)
  | panicked
deriving DecidableEq, Repr

/-- Final outcome of a whole run.  polling means the status-polling loop
is still running because no supplied poll response was terminal. -/
inductive RunResult where
  | ok
  | fatal (msg : String)
  | panicked
  | polling
deriving DecidableEq, Repr

/-- Map a stage abort to the run outcome. -/
def abortResult : Abort → RunResult
  | .fatal m => .fatal m
  | .panicked => .panicked

/-- Whether a run outcome is a terminated failure (non-zero exit status). -/
def isAbort : RunResult → Bool
  | .fatal _ => true
  | .panicked => true
  | _ => false

/-- Process exit status of a terminated run: 0 for success, 1 for
log.Fatalf, 2 for a runtime panic; none while still polling. -/
def exitCode : RunResult → Option Nat
  | .ok => some 0
  | .fatal _ => some 1
  | .panicked => some 2
  | .polling => none

/-- Effective configuration of a run: the values the program reads
through viper (config file merged with flag overrides) and the
command-line flags registered in init.  The program registers exactly
the flags config, domain, dry-run, keepExisting, machineName and trace;
no case-insensitivity flag exists. -/
structure Config where
  configFileUsed : String
  configFileExists : Bool
  baseURL : String
  tenant : String
  domain : String
  userName : String
  password : String
  machineName : String
  dryRun : Bool
  keepExisting : Bool
  trace : Bool
deriving DecidableEq, Repr

/-- An HTTP response as the program observes it: status code, the
Location header (empty string when the header is absent, as Go's
Header.Get returns) and the body. -/
structure HttpResp where
  status : Nat
  location : String
  body : String
deriving DecidableEq, Repr

/-- Result of one client.Do call: a transport/connection error (err is
non-nil and the response is nil) or a response. -/
inductive NetResult where
  | fail (msg : String)
  | resp (r : HttpResp)
deriving DecidableEq, Repr

/-- Tag of one HTTP request the run issues, in pipeline order. -/
inductive ReqTag where
  | auth
  | vmList
  | actions
  | submit
  | poll
deriving DecidableEq, Repr

/-- The network environment of one run: what each stage's request would
observe, the JSON decoder for the authentication response body
(modelling json.Unmarshal), and the successive poll responses. -/
structure Env where
  authNet : NetResult
  authDecode : String → Except String GetBearerTokenResponse
  vmNet : NetResult
  actionNet : NetResult
  submitNet : NetResult
  pollNets : List NetResult

/-- An event of the status-polling loop: the unconditional sleep (in
seconds) or one poll request. -/
inductive Ev where
  | sleep (seconds : Nat)
  | poll
deriving DecidableEq, Repr

/-! ### The pipeline stages -/

/-- exitOnEmptyString: log.Fatalf when the value trims to the empty
string, naming the value. -/
def exitOnEmptyString (stringName stringValue : String) : Except Abort Unit :=
  if (goTrimSpace stringValue).length = 0 then
    .error (.fatal ("Error: zero-length string `" ++ stringName ++ "`"))
  else .ok ()

/-- validateConfig: require the config file to exist and the five
configuration values baseURL, tenant, domain, userName, password to be
non-empty after trimming, in that order, before any stage runs. -/
def validateConfig (cfg : Config) : Except Abort Unit :=
  if cfg.configFileExists then
    match exitOnEmptyString "baseURL" cfg.baseURL with
    | .error a => .error a
    | .ok _ =>
      match exitOnEmptyString "tenant" cfg.tenant with
      | .error a => .error a
      | .ok _ =>
        match exitOnEmptyString "domain" cfg.domain with
        | .error a => .error a
        | .ok _ =>
          match exitOnEmptyString "userName" cfg.userName with
          | .error a => .error a
          | .ok _ => exitOnEmptyString "password" cfg.password
  else
    .error (.fatal ("Error: Unable to find configfile \"" ++ cfg.configFileUsed ++ "\""))

/-- Request variables of the authentication call: the username is the
configured user name combined with the domain in user-at-domain form. -/
def getBearerTokenRequestVars (userName domain password tenant : String) : GetBearerTokenRequest :=
  { Username := userName ++ "@" ++ domain, Password := password, Tenant := tenant }

/-- Step 1, getBearerToken: a transport error is fatal through
logFatalError; a non-200 status is fatal with the extracted
systemMessage (indexing the nil submatch slice, hence panicking, when
the body holds no match); on 200 the body is decoded, a decode error is
fatal, an empty decoded token id is fatal, and otherwise the returned
credential is the string Bearer followed by a space and the token id. -/
def getBearerToken (userName domain password tenant : String) (net : NetResult)
    (decode : String → Except String GetBearerTokenResponse) : Except Abort String :=
  match net with
  | .fail e => .error (.fatal ("Error: " ++ e))
  | .resp r =>
    if r.status ≠ 200 then
      match extractSystemMessage r.body with
      | some m =>
        .error (.fatal ("Error: Unexpected HTTP response status code " ++ toString r.status ++ ", " ++ m))
      | none => .error .panicked
    else
      match decode r.body with
      | .error e => .error (.fatal ("Error: " ++ e))
      | .ok g =>
        match exitOnEmptyString "bearerToken" g.ID with
        | .error a => .error a
        | .ok _ => .ok ("Bearer " ++ g.ID)

/-- Step 2, getVirtualMachineResourceID: a transport error is fatal
through logFatalError; a non-200 status is fatal with the extracted h1
title (panicking when absent); on 200 the virtual-machine resource
regex is applied and a missing match is fatal naming the machine, while
a match yields the 36-character id (after the empty-string guard). -/
def getVirtualMachineResourceID (machine : String) (net : NetResult) : Except Abort String :=
  match net with
  | .fail e => .error (.fatal ("Error: " ++ e))
  | .resp r =>
    if r.status ≠ 200 then
      match extractH1 r.body with
      | some t => .error (.fatal ("Error: " ++ t))
      | none => .error .panicked
    else
      match findVMResourceID machine r.body with
      | none =>
        .error (.fatal ("Error: Unable to find Catalog Resource id for virtual machine \"" ++ machine ++ "\""))
      | some id =>
        match exitOnEmptyString "machineID" id with
        | .error a => .error a
        | .ok _ => .ok id

/-- Step 3, getSnapshotResourceActionID: a transport error is only
logged with log.Println, after which the nil response body is read and
the run panics; a non-200 status is fatal with the extracted h1 title
(panicking when absent); on 200 the snapshot-action regex is applied
and a missing match is fatal, while a match yields the action id. -/
def getSnapshotResourceActionID (net : NetResult) : Except Abort String :=
  match net with
  | .fail _ => .error .panicked
  | .resp r =>
    if r.status ≠ 200 then
      match extractH1 r.body with
      | some t => .error (.fatal ("Error: " ++ t))
      | none => .error .panicked
    else
      match extractActionID r.body with
      | none => .error (.fatal "Error: Unable to find Create Snapshot Action id")
      | some id =>
        match exitOnEmptyString "Create Snapshot Action ID" id with
        | .error a => .error a
        | .ok _ => .ok id

/-- Step 4, getResourceActionTemplate: a no-op placeholder performing no
network call. -/
def getResourceActionTemplate : Unit := ()

/-- The snapshot request body built by sendSnapshotRequest: two literal
JSON strings with the tenant spliced in, differing only in the
provider-deleteExisting value, false when keepExisting is set and true
otherwise. -/
def sendSnapshotRequestBody (keepExisting : Bool) (tenant : String) : String :=
  if keepExisting then
    "\x7b\"type\": \"com.vmware.vcac.catalog.domain.request.CatalogResourceRequest\",\"data\": \x7b\"provider-existingSnapshotName\": null,\"provider-deleteExisting\": false,\"provider-description\": \"Snapshotdescription\",\"provider-name\": \"Snapshot name\",\"provider-__ASD_PRESENTATION_INSTANCE\": null,\"provider-__asd_tenantRef\": \"" ++ tenant ++ "\"\x7d,\"description\": \"makeSnapshot call\"\x7d"
  else
    "\x7b\"type\": \"com.vmware.vcac.catalog.domain.request.CatalogResourceRequest\",\"data\": \x7b\"provider-existingSnapshotName\": null,\"provider-deleteExisting\": true,\"provider-description\": \"Snapshotdescription\",\"provider-name\": \"Snapshot name\",\"provider-__ASD_PRESENTATION_INSTANCE\": null,\"provider-__asd_tenantRef\": \"" ++ tenant ++ "\"\x7d,\"description\": \"makeSnapshot call\"\x7d"

/-- Step 5, sendSnapshotRequest: posts the snapshot request body; a
transport error is fatal through logFatalError; a status other than 201
is fatal with the extracted h1 title (panicking when absent); on 201
the Location header is required to be non-empty after trimming and is
returned as the status-polling URL. -/
def sendSnapshotRequest (net : NetResult) : Except Abort String :=
  match net with
  | .fail e => .error (.fatal ("Error: " ++ e))
  | .resp r =>
    if r.status ≠ 201 then
      match extractH1 r.body with
      | some t => .error (.fatal ("Error: " ++ t))
      | none => .error .panicked
    else
      match exitOnEmptyString "Resource Action Request URL" r.location with
      | .error a => .error a
      | .ok _ => .ok r.location

/-- One iteration of the status-polling loop, after the sleep: a
transport error is only logged with log.Println, after which the nil
response body is read and the run panics; otherwise the stateName is
extracted (indexing the nil submatch slice, hence panicking, when the
body holds no match); Failed is fatal, Successful leaves the loop, and
every other value continues polling. -/
def pollStepOutcome (n : NetResult) : Option (Except Abort Unit) :=
  match n with
  | .fail _ => some (.error .panicked)
  | .resp r =>
    match extractStateName r.body with
    | none => some (.error .panicked)
    | some st =>
      if st = "Failed" then
        some (.error (.fatal "Error: Snapshot request failed, check the vRA portal for more info"))
      else if st = "Successful" then some (.ok ())
      else none

/-- Step 6, getRequestResultState: an unbounded loop that sleeps 10
seconds, polls, and reacts to the extracted state; driven here by the
successive poll responses, returning the sleep/poll event trace and the
terminal outcome (none when every supplied response was non-terminal,
so the loop is still running). -/
def getRequestResultState : List NetResult → List Ev × Option (Except Abort Unit)
  | [] => ([], none)
  | n :: rest =>
    match pollStepOutcome n with
    | some o => ([Ev.sleep 10, Ev.poll], some o)
    | none =>
      (Ev.sleep 10 :: Ev.poll :: (getRequestResultState rest).1, (getRequestResultState rest).2)

/-- rootCmd.Run: validate the configuration, then run stages 1 to 4,
then, unless dry-run is set, send the snapshot request and poll its
status.  Returns the run outcome and the tags of the HTTP requests the
run issued, in order. -/
def runPipeline (cfg : Config) (env : Env) : RunResult × List ReqTag :=
  match validateConfig cfg with
  | .error a => (abortResult a, [])
  | .ok _ =>
    match getBearerToken cfg.userName cfg.domain cfg.password cfg.tenant env.authNet env.authDecode with
    | .error a => (abortResult a, [.auth])
    | .ok _token =>
      match getVirtualMachineResourceID cfg.machineName env.vmNet with
      | .error a => (abortResult a, [.auth, .vmList])
      | .ok _vmID =>
        match getSnapshotResourceActionID env.actionNet with
        | .error a => (abortResult a, [.auth, .vmList, .actions])
        | .ok _actionID =>
          let _ := getResourceActionTemplate
          if cfg.dryRun then
            (.ok, [.auth, .vmList, .actions])
          else
            match sendSnapshotRequest env.submitNet with
            | .error a => (abortResult a, [.auth, .vmList, .actions, .submit])
            | .ok _statusURL =>
              let p := getRequestResultState env.pollNets
              let tags := [ReqTag.auth, .vmList, .actions, .submit] ++
                List.replicate (p.1.count Ev.poll) ReqTag.poll
              match p.2 with
              | none => (.polling, tags)
              | some (.ok _) => (.ok, tags)
              | some (.error a) => (abortResult a, tags)

/-! ### Concrete fixtures used by several theorems and witnesses -/

/-- A decode function for the authentication response body, modelling a
successful json.Unmarshal. -/
def demoDecode : String → Except String GetBearerTokenResponse :=
  fun _ => .ok { Expires := "2019-05-01", ID := "TOKEN123", Tenant := "tenantA" }

/-- A 36-character resource identifier. -/
def demoID : String := "0123456789abcdef0123456789abcdef0123"

/-- A catalog listing body holding one virtual-machine entry whose name
is the 3-character prefix abc followed by myVM. -/
def demoVMBody : String :=
  vmLit1 ++ demoID ++ vmLit2 ++ "abc" ++ "myVM" ++ vmLit3 ++ ": \"d\""

/-- A catalog listing body whose single entry name abcmyVMx strictly
contains myVM as a substring without being equal to it after the
3-character prefix. -/
def demoSubstrBody : String :=
  vmLit1 ++ demoID ++ vmLit2 ++ "abc" ++ "myVMx" ++ vmLit3 ++ ": \"d\""

/-- A catalog listing body whose single entry name abcMyVM matches the
machine name myvm case-insensitively but not case-sensitively. -/
def demoCIBody : String :=
  vmLit1 ++ demoID ++ vmLit2 ++ "abc" ++ "MyVM" ++ vmLit3 ++ ": \"d\""

/-- An action listing body holding the Create VM Snapshot action. -/
def demoActionBody : String :=
  "\"name\":\"Create VM Snapshot\",\"type\":\"ACTION\",\"id\":\"act-42\",\"x\":1"

/-- A poll response carrying the given stateName value. -/
def pollResp (st : String) : NetResult :=
  .resp { status := 200, location := "", body := "\"stateName\":\"" ++ st ++ "\"" }

/-- A fully valid configuration. -/
def goodCfg : Config :=
  { configFileUsed := "makeSnapshot.yaml", configFileExists := true,
    baseURL := "https://base", tenant := "tenantA", domain := "dom",
    userName := "user", password := "pw", machineName := "myVM",
    dryRun := false, keepExisting := false, trace := false }

/-- An environment in which stages 1, 2, 3 and 5 all succeed, with the
given poll responses. -/
def goodEnv (polls : List NetResult) : Env :=
  { authNet := .resp { status := 200, location := "", body := "\x7b\"id\":\"TOKEN123\"\x7d" },
    authDecode := demoDecode,
    vmNet := .resp { status := 200, location := "", body := demoVMBody },
    actionNet := .resp { status := 200, location := "", body := demoActionBody },
    submitNet := .resp { status := 201, location := "https://base/req/1", body := "" },
    pollNets := polls }

/-- Whether a body contains a match of a literal-gap-literal pattern:
an occurrence of the opening literal followed, after a run of
characters containing no newline, by the closing literal.  This is
exactly when the corresponding source regex has a match, so exactly
when FindStringSubmatch returns a non-nil slice. -/
def hasLGLMatch (l1 l2 : List Char) (body : String) : Prop :=
  ∃ pre m post, body.data = pre ++ l1 ++ m ++ l2 ++ post ∧ '\n' ∉ m

/-- JSON rendering of a boolean. -/
def boolJson (b : Bool) : String :=
  if b then "true" else "false"

/-- The snapshot request body up to the provider-deleteExisting value. -/
def payloadPre : String :=
  "\x7b\"type\": \"com.vmware.vcac.catalog.domain.request.CatalogResourceRequest\",\"data\": \x7b\"provider-existingSnapshotName\": null,\"provider-deleteExisting\": "

/-- The snapshot request body between the provider-deleteExisting value
and the spliced-in tenant. -/
def payloadMid : String :=
  ",\"provider-description\": \"Snapshotdescription\",\"provider-name\": \"Snapshot name\",\"provider-__ASD_PRESENTATION_INSTANCE\": null,\"provider-__asd_tenantRef\": \""

/-- The snapshot request body after the spliced-in tenant. -/
def payloadEnd : String :=
  "\"\x7d,\"description\": \"makeSnapshot call\"\x7d"

/-- A configuration in which every boolean command-line option the
program registers is set, and the requested machine name is myvm. -/
def cfgAllFlags : Config :=
  { configFileUsed := "makeSnapshot.yaml", configFileExists := true,
    baseURL := "https://base", tenant := "tenantA", domain := "dom",
    userName := "user", password := "pw", machineName := "myvm",
    dryRun := true, keepExisting := true, trace := true }

/-- The environment whose catalog listing holds only the entry named
abcMyVM, matching myvm case-insensitively but not case-sensitively. -/
def envCI : Env :=
  { goodEnv [] with vmNet := .resp { status := 200, location := "", body := demoCIBody } }

/-- The environment in which the snapshot-request submission receives a
403 response instead of 201. -/
def envNon201 : Env :=
  { goodEnv [] with submitNet := .resp { status := 403, location := "", body := "<h1>denied</h1>" } }

/-- The valid configuration with a whitespace-only password. -/
def cfgNoPass : Config :=
  { goodCfg with password := " " }

/-! ### Helper lemmas about the matcher machinery -/

theorem isSome_map {α β : Type} (f : α → β) (o : Option α) :
    (o.map f).isSome = o.isSome := by
  cases o <;> rfl

theorem isPrefixOf_iff_append {l s : List Char} :
    l.isPrefixOf s = true ↔ ∃ t, s = l ++ t := by
  induction l generalizing s with
  | nil => simp [List.isPrefixOf]
  | cons a as ih =>
    cases s with
    | nil => simp [List.isPrefixOf]
    | cons b bs =>
      simp only [List.isPrefixOf, Bool.and_eq_true, beq_iff_eq, ih, List.cons_append,
        List.cons.injEq]
      constructor
      · rintro ⟨hab, t, ht⟩
        exact ⟨t, hab.symm, ht⟩
      · rintro ⟨t, hab, ht⟩
        exact ⟨hab.symm, t, ht⟩



theorem orElseO_eq_some {β : Type} {a b : Option β} {x : β} :
    orElseO a b = some x ↔ a = some x ∨ (a = none ∧ b = some x) := by
  cases a <;> simp [orElseO]

theorem orElseO_isSome {β : Type} {a b : Option β} :
    (orElseO a b).isSome = (a.isSome || b.isSome) := by
  cases a <;> simp [orElseO]

theorem scanFirst_eq_some {α : Type} {f : List Char → Option α} {s : List Char} {a : α}
    (h : scanFirst f s = some a) : ∃ pre t, s = pre ++ t ∧ f t = some a := by
  induction s with
  | nil => exact ⟨[], [], rfl, h⟩
  | cons c cs ih =>
    rw [scanFirst] at h
    cases hf : f (c :: cs) with
    | some r =>
      rw [hf] at h
      exact ⟨[], c :: cs, rfl, hf.trans h⟩
    | none =>
      rw [hf] at h
      obtain ⟨pre, t, hpt, hft⟩ := ih h
      exact ⟨c :: pre, t, by rw [List.cons_append, hpt], hft⟩

theorem scanFirst_isSome_of {α : Type} {f : List Char → Option α} {pre t : List Char}
    (h : (f t).isSome = true) : (scanFirst f (pre ++ t)).isSome = true := by
  induction pre with
  | nil =>
    cases t with
    | nil => exact h
    | cons c cs =>
      rw [List.nil_append, scanFirst]
      cases hf : f (c :: cs) with
      | some r => rfl
      | none => rw [hf] at h; exact absurd h (by simp)
  | cons c cs ih =>
    rw [List.cons_append, scanFirst]
    cases hf : f (c :: (cs ++ t)) with
    | some r => rfl
    | none => exact ih

theorem lazyMid_eq_some {l2 : List Char} {r g rest : List Char}
    (h : lazyMid l2 r = some (g, rest)) : r = g ++ l2 ++ rest ∧ '\n' ∉ g := by
  induction r generalizing g rest with
  | nil =>
    rw [lazyMid] at h
    split_ifs at h with hp
    · simp only [Option.some.injEq, Prod.mk.injEq] at h
      obtain ⟨hg, hr⟩ := h
      obtain ⟨t, ht⟩ := isPrefixOf_iff_append.mp hp
      cases l2 with
      | cons x xs => exact absurd ht (by simp)
      | nil => subst hg; subst hr; simp
  | cons c cs ih =>
    rw [lazyMid] at h
    split_ifs at h with hp hc
    · simp only [Option.some.injEq, Prod.mk.injEq] at h
      obtain ⟨hg, hr⟩ := h
      obtain ⟨t, ht⟩ := isPrefixOf_iff_append.mp hp
      subst hg; subst hr
      refine ⟨?_, by simp⟩
      rw [List.nil_append, ht, List.drop_left]
    · rw [Option.map_eq_some'] at h
      obtain ⟨⟨p1, p2⟩, hlm, hfn⟩ := h
      obtain ⟨hcs, hnl⟩ := ih hlm
      have hg : c :: p1 = g := congrArg Prod.fst hfn
      have hr : p2 = rest := congrArg Prod.snd hfn
      subst hg; subst hr
      refine ⟨by rw [hcs]; simp [List.append_assoc], ?_⟩
      intro hmem
      rcases List.mem_cons.mp hmem with h1 | h1
      · exact hc h1.symm
      · exact hnl h1

theorem lazyMid_isSome {l2 m post : List Char} (hm : '\n' ∉ m) :
    (lazyMid l2 (m ++ (l2 ++ post))).isSome = true := by
  induction m with
  | nil =>
    rw [List.nil_append]
    have hpre : l2.isPrefixOf (l2 ++ post) = true := isPrefixOf_iff_append.mpr ⟨post, rfl⟩
    cases hl : l2 ++ post with
    | nil => rw [hl] at hpre; rw [lazyMid, if_pos hpre]; rfl
    | cons c cs => rw [hl] at hpre; rw [lazyMid, if_pos hpre]; rfl
  | cons c cs ih =>
    have hc : ¬ (c = '\n') := fun h => hm (by rw [← h]; exact List.mem_cons_self c cs)
    have hcs : '\n' ∉ cs := fun h => hm (List.mem_cons_of_mem c h)
    rw [List.cons_append, lazyMid]
    by_cases hp : l2.isPrefixOf (c :: (cs ++ (l2 ++ post))) = true
    · rw [if_pos hp]; rfl
    · rw [if_neg hp, if_neg hc, isSome_map]
      exact ih hcs

theorem greedyMid_eq_some {l2 : List Char} {r g rest : List Char}
    (h : greedyMid l2 r = some (g, rest)) : r = g ++ l2 ++ rest ∧ '\n' ∉ g := by
  induction r generalizing g rest with
  | nil =>
    rw [greedyMid] at h
    split_ifs at h with hp
    · simp only [Option.some.injEq, Prod.mk.injEq] at h
      obtain ⟨hg, hr⟩ := h
      obtain ⟨t, ht⟩ := isPrefixOf_iff_append.mp hp
      cases l2 with
      | cons x xs => exact absurd ht (by simp)
      | nil => subst hg; subst hr; simp
  | cons c cs ih =>
    rw [greedyMid, orElseO_eq_some] at h
    rcases h with h | ⟨-, h⟩
    · split_ifs at h with hc
      rw [Option.map_eq_some'] at h
      obtain ⟨⟨p1, p2⟩, hgm, hfn⟩ := h
      obtain ⟨hcs2, hnl⟩ := ih hgm
      have hg : c :: p1 = g := congrArg Prod.fst hfn
      have hr : p2 = rest := congrArg Prod.snd hfn
      subst hg; subst hr
      refine ⟨by rw [hcs2]; simp [List.append_assoc], ?_⟩
      intro hmem
      rcases List.mem_cons.mp hmem with h1 | h1
      · exact hc h1.symm
      · exact hnl h1
    · split_ifs at h with hp
      simp only [Option.some.injEq, Prod.mk.injEq] at h
      obtain ⟨hg, hr⟩ := h
      obtain ⟨t, ht⟩ := isPrefixOf_iff_append.mp hp
      subst hg; subst hr
      refine ⟨?_, by simp⟩
      rw [List.nil_append, ht, List.drop_left]

theorem greedyMid_isSome {l2 m post : List Char} (hm : '\n' ∉ m) :
    (greedyMid l2 (m ++ (l2 ++ post))).isSome = true := by
  induction m with
  | nil =>
    rw [List.nil_append]
    have hpre : l2.isPrefixOf (l2 ++ post) = true := isPrefixOf_iff_append.mpr ⟨post, rfl⟩
    cases hl : l2 ++ post with
    | nil => rw [hl] at hpre; rw [greedyMid, if_pos hpre]; rfl
    | cons c cs =>
      rw [hl] at hpre
      rw [greedyMid, orElseO_isSome, if_pos hpre]
      simp
  | cons c cs ih =>
    have hc : ¬ (c = '\n') := fun h => hm (by rw [← h]; exact List.mem_cons_self c cs)
    have hcs : '\n' ∉ cs := fun h => hm (List.mem_cons_of_mem c h)
    rw [List.cons_append, greedyMid, orElseO_isSome, if_neg hc, isSome_map]
    rw [ih hcs]
    simp

theorem regexLitPat_length (l : List Char) : (regexLitPat l).length = l.length := by
  simp [regexLitPat]

theorem patMatchesAt_append {p q : List CharPat} {s : List Char}
    (h : patMatchesAt (p ++ q) s = true) :
    patMatchesAt p (s.take p.length) = true ∧
    patMatchesAt q (s.drop p.length) = true ∧
    (s.take p.length).length = p.length := by
  induction p generalizing s with
  | nil => exact ⟨rfl, h, rfl⟩
  | cons a ps ih =>
    cases s with
    | nil => rw [List.cons_append, patMatchesAt] at h; exact absurd h (by simp)
    | cons c cs =>
      rw [List.cons_append, patMatchesAt, Bool.and_eq_true] at h
      obtain ⟨h1, h2⟩ := h
      obtain ⟨ih1, ih2, ih3⟩ := ih h2
      refine ⟨?_, ?_, ?_⟩
      · rw [List.length_cons, List.take_succ_cons, patMatchesAt, Bool.and_eq_true]
        exact ⟨h1, ih1⟩
      · rw [List.length_cons, List.drop_succ_cons]
        exact ih2
      · rw [List.length_cons, List.take_succ_cons, List.length_cons, ih3]

theorem patMatchesAt_lit_exact {l s : List Char} (hdot : '.' ∉ l)
    (h : patMatchesAt (regexLitPat l) s = true) : s.take l.length = l := by
  induction l generalizing s with
  | nil => simp
  | cons a as ih =>
    have ha : ¬ (a = '.') := fun hh => hdot (List.mem_cons.mpr (Or.inl hh.symm))
    have has : '.' ∉ as := fun hm => hdot (List.mem_cons_of_mem a hm)
    cases s with
    | nil =>
      rw [regexLitPat] at h
      simp only [List.map_cons] at h
      rw [patMatchesAt] at h
      exact absurd h (by simp)
    | cons c cs =>
      rw [regexLitPat] at h
      simp only [List.map_cons, if_neg ha] at h
      rw [patMatchesAt, Bool.and_eq_true] at h
      obtain ⟨h1, h2⟩ := h
      have hac : a = c := by simpa [charPatMatches] using h1
      have h2' : patMatchesAt (regexLitPat as) cs = true := h2
      rw [List.length_cons, List.take_succ_cons, ih has h2', hac]

theorem patMatchesAt_any {n : Nat} {s : List Char}
    (h : patMatchesAt (List.replicate n CharPat.any) s = true) :
    (s.take n).length = n ∧ ∀ c ∈ s.take n, c ≠ '\n' := by
  induction n generalizing s with
  | zero => simp
  | succ n ih =>
    cases s with
    | nil => rw [List.replicate_succ, patMatchesAt] at h; exact absurd h (by simp)
    | cons c cs =>
      rw [List.replicate_succ, patMatchesAt, Bool.and_eq_true] at h
      obtain ⟨h1, h2⟩ := h
      obtain ⟨ih1, ih2⟩ := ih h2
      have hc : c ≠ '\n' := by simpa [charPatMatches] using h1
      refine ⟨by rw [List.take_succ_cons, List.length_cons, ih1], ?_⟩
      intro d hd
      rw [List.take_succ_cons] at hd
      rcases List.mem_cons.mp hd with h3 | h3
      · rw [h3]; exact hc
      · exact ih2 d h3

theorem peel_pat {p q : List CharPat} {s : List Char}
    (h : patMatchesAt (p ++ q) s = true) :
    ∃ w s', s = w ++ s' ∧ w.length = p.length ∧ patMatchesAt p w = true ∧
      patMatchesAt q s' = true := by
  obtain ⟨h1, h2, h3⟩ := patMatchesAt_append h
  exact ⟨s.take p.length, s.drop p.length, (List.take_append_drop _ _).symm, h3, h1, h2⟩

theorem peel_lit {l : List Char} {q : List CharPat} {s : List Char} (hdot : '.' ∉ l)
    (h : patMatchesAt (regexLitPat l ++ q) s = true) :
    ∃ s', s = l ++ s' ∧ patMatchesAt q s' = true := by
  obtain ⟨h1, h2, h3⟩ := patMatchesAt_append h
  rw [regexLitPat_length] at h1 h2
  have hx := patMatchesAt_lit_exact hdot h1
  rw [List.take_take, min_self] at hx
  refine ⟨s.drop l.length, ?_, h2⟩
  calc s = s.take l.length ++ s.drop l.length := (List.take_append_drop _ _).symm
    _ = l ++ s.drop l.length := by rw [hx]

theorem peel_any {n : Nat} {q : List CharPat} {s : List Char}
    (h : patMatchesAt (List.replicate n CharPat.any ++ q) s = true) :
    ∃ w s', s = w ++ s' ∧ w.length = n ∧ (∀ c ∈ w, c ≠ '\n') ∧
      patMatchesAt q s' = true := by
  obtain ⟨h1, h2, h3⟩ := patMatchesAt_append h
  rw [List.length_replicate] at h1 h2 h3
  obtain ⟨ha, hb⟩ := patMatchesAt_any h1
  rw [List.take_take, min_self] at hb
  exact ⟨s.take n, s.drop n, (List.take_append_drop _ _).symm, h3, hb, h2⟩


theorem vmTry_eq_some {machine rest id : List Char} (hdot : '.' ∉ machine)
    (h : vmTry machine rest = some id) :
    id.length = 36 ∧ (∀ c ∈ id, c ≠ '\n') ∧
    ∃ seg2 p3 post,
      rest = vmLit1.data ++ id ++ seg2 ++ p3 ++ machine ++ vmLit3.data ++ post ∧
      patMatchesAt (regexLitPat vmLit2.data) seg2 = true ∧
      seg2.length = vmLit2.data.length ∧
      p3.length = 3 ∧ (∀ c ∈ p3, c ≠ '\n') := by
  rw [vmTry] at h
  split_ifs at h with hm
  simp only [Option.some.injEq] at h
  rw [vmPattern] at hm
  obtain ⟨s1, hs1, hm1⟩ := peel_lit (by decide) hm
  obtain ⟨w, s2, hs2, hwlen, hwnl, hm2⟩ := peel_any hm1
  obtain ⟨seg2, s3, hs3, hseglen, hsegpat, hm3⟩ := peel_pat hm2
  obtain ⟨p3, s4, hs4, hp3len, hp3nl, hm4⟩ := peel_any hm3
  obtain ⟨s5, hs5, hm5⟩ := peel_lit hdot hm4
  rw [regexLitPat_length] at hseglen
  have hx := patMatchesAt_lit_exact (l := vmLit3.data) (by decide) hm5
  obtain ⟨post, hpost⟩ : ∃ post, s5 = vmLit3.data ++ post := by
    refine ⟨s5.drop vmLit3.data.length, ?_⟩
    calc s5 = s5.take vmLit3.data.length ++ s5.drop vmLit3.data.length :=
        (List.take_append_drop _ _).symm
      _ = vmLit3.data ++ s5.drop vmLit3.data.length := by rw [hx]
  have hidw : id = w := by
    rw [← h, hs1]
    have hl : vmLit1.length = vmLit1.data.length := rfl
    rw [hl, List.drop_left, hs2, ← hwlen, List.take_left]
  subst hidw
  refine ⟨hwlen, hwnl, seg2, p3, post, ?_, hsegpat, hseglen, hp3len, hp3nl⟩
  rw [hs1, hs2, hs3, hs4, hs5, hpost]
  simp [List.append_assoc]

theorem scanLazy_isSome_iff {l1 l2 : List Char} {s : List Char} :
    (scanFirst (fun t =>
      if l1.isPrefixOf t then ((lazyMid l2 (t.drop l1.length)).map (fun p => p.1)) else none)
      s).isSome = true ↔
    ∃ pre m post, s = pre ++ l1 ++ m ++ l2 ++ post ∧ '\n' ∉ m := by
  constructor
  · intro h
    rw [Option.isSome_iff_exists] at h
    obtain ⟨g, hg⟩ := h
    obtain ⟨pre, t, hpt, hft⟩ := scanFirst_eq_some hg
    split_ifs at hft with hp
    rw [Option.map_eq_some'] at hft
    obtain ⟨⟨m, rem⟩, hlm, hfn⟩ := hft
    obtain ⟨t2, ht2⟩ := isPrefixOf_iff_append.mp hp
    rw [ht2, List.drop_left] at hlm
    obtain ⟨hdec, hnl⟩ := lazyMid_eq_some hlm
    refine ⟨pre, m, rem, ?_, hnl⟩
    rw [hpt, ht2, hdec]
    simp [List.append_assoc]
  · rintro ⟨pre, m, post, hdec, hnl⟩
    rw [hdec, show pre ++ l1 ++ m ++ l2 ++ post = pre ++ (l1 ++ (m ++ (l2 ++ post))) by
      simp [List.append_assoc]]
    apply scanFirst_isSome_of
    have hp : l1.isPrefixOf (l1 ++ (m ++ (l2 ++ post))) = true :=
      isPrefixOf_iff_append.mpr ⟨_, rfl⟩
    simp only [if_pos hp, List.drop_left, isSome_map]
    exact lazyMid_isSome hnl

theorem scanGreedy_isSome_iff {l1 l2 : List Char} {s : List Char} :
    (scanFirst (fun t =>
      if l1.isPrefixOf t then ((greedyMid l2 (t.drop l1.length)).map (fun p => p.1)) else none)
      s).isSome = true ↔
    ∃ pre m post, s = pre ++ l1 ++ m ++ l2 ++ post ∧ '\n' ∉ m := by
  constructor
  · intro h
    rw [Option.isSome_iff_exists] at h
    obtain ⟨g, hg⟩ := h
    obtain ⟨pre, t, hpt, hft⟩ := scanFirst_eq_some hg
    split_ifs at hft with hp
    rw [Option.map_eq_some'] at hft
    obtain ⟨⟨m, rem⟩, hgm, hfn⟩ := hft
    obtain ⟨t2, ht2⟩ := isPrefixOf_iff_append.mp hp
    rw [ht2, List.drop_left] at hgm
    obtain ⟨hdec, hnl⟩ := greedyMid_eq_some hgm
    refine ⟨pre, m, rem, ?_, hnl⟩
    rw [hpt, ht2, hdec]
    simp [List.append_assoc]
  · rintro ⟨pre, m, post, hdec, hnl⟩
    rw [hdec, show pre ++ l1 ++ m ++ l2 ++ post = pre ++ (l1 ++ (m ++ (l2 ++ post))) by
      simp [List.append_assoc]]
    apply scanFirst_isSome_of
    have hp : l1.isPrefixOf (l1 ++ (m ++ (l2 ++ post))) = true :=
      isPrefixOf_iff_append.mpr ⟨_, rfl⟩
    simp only [if_pos hp, List.drop_left, isSome_map]
    exact greedyMid_isSome hnl

theorem extractStateName_isSome_iff {body : String} :
    (extractStateName body).isSome = true ↔ hasLGLMatch stateNameLit ['"'] body := by
  rw [extractStateName, isSome_map]
  unfold hasLGLMatch
  exact scanLazy_isSome_iff

theorem extractSystemMessage_isSome_iff {body : String} :
    (extractSystemMessage body).isSome = true ↔ hasLGLMatch sysMsgLit1 sysMsgLit2 body := by
  rw [extractSystemMessage, isSome_map]
  unfold hasLGLMatch
  exact scanGreedy_isSome_iff

theorem extractH1_isSome_iff {body : String} :
    (extractH1 body).isSome = true ↔ hasLGLMatch h1Lit1 h1Lit2 body := by
  rw [extractH1, isSome_map]
  unfold hasLGLMatch
  exact scanGreedy_isSome_iff

theorem pollTrace_blocks (nets : List NetResult) :
    ∃ k, (getRequestResultState nets).1 = (List.replicate k [Ev.sleep 10, Ev.poll]).flatten := by
  induction nets with
  | nil => exact ⟨0, rfl⟩
  | cons n rest ih =>
    rw [getRequestResultState]
    cases ho : pollStepOutcome n with
    | some o => exact ⟨1, rfl⟩
    | none =>
      obtain ⟨k, hk⟩ := ih
      refine ⟨k + 1, ?_⟩
      show Ev.sleep 10 :: Ev.poll :: (getRequestResultState rest).1 = _
      rw [hk, List.replicate_succ, List.flatten_cons]
      rfl

theorem poller_inprogress (n : Nat) :
    getRequestResultState (List.replicate n (pollResp "In Progress")) =
      ((List.replicate n [Ev.sleep 10, Ev.poll]).flatten, none) := by
  induction n with
  | zero => rfl
  | succ n ih =>
    rw [List.replicate_succ, getRequestResultState]
    have hstep : pollStepOutcome (pollResp "In Progress") = none := rfl
    rw [hstep]
    show (Ev.sleep 10 :: Ev.poll :: (getRequestResultState (List.replicate n (pollResp "In Progress"))).1,
          (getRequestResultState (List.replicate n (pollResp "In Progress"))).2) = _
    rw [ih, List.replicate_succ (n := n), List.flatten_cons]
    rfl

theorem poller_succ_seq (n : Nat) :
    getRequestResultState (List.replicate n (pollResp "In Progress") ++ [pollResp "Successful"]) =
      ((List.replicate (n + 1) [Ev.sleep 10, Ev.poll]).flatten, some (Except.ok ())) := by
  induction n with
  | zero => rfl
  | succ n ih =>
    rw [List.replicate_succ, List.cons_append, getRequestResultState]
    have hstep : pollStepOutcome (pollResp "In Progress") = none := rfl
    rw [hstep]
    show (Ev.sleep 10 :: Ev.poll ::
            (getRequestResultState (List.replicate n (pollResp "In Progress") ++ [pollResp "Successful"])).1,
          (getRequestResultState (List.replicate n (pollResp "In Progress") ++ [pollResp "Successful"])).2) = _
    rw [ih, List.replicate_succ (n := n + 1), List.flatten_cons]
    rfl

theorem poller_fail_seq (n : Nat) (rest : List NetResult) :
    getRequestResultState (List.replicate n (pollResp "In Progress") ++ pollResp "Failed" :: rest) =
      ((List.replicate (n + 1) [Ev.sleep 10, Ev.poll]).flatten,
        some (Except.error (Abort.fatal
          "Error: Snapshot request failed, check the vRA portal for more info"))) := by
  induction n with
  | zero => rfl
  | succ n ih =>
    rw [List.replicate_succ, List.cons_append, getRequestResultState]
    have hstep : pollStepOutcome (pollResp "In Progress") = none := rfl
    rw [hstep]
    show (Ev.sleep 10 :: Ev.poll ::
            (getRequestResultState (List.replicate n (pollResp "In Progress") ++ pollResp "Failed" :: rest)).1,
          (getRequestResultState (List.replicate n (pollResp "In Progress") ++ pollResp "Failed" :: rest)).2) = _
    rw [ih, List.replicate_succ (n := n + 1), List.flatten_cons]
    rfl

/-- C1: The status-polling loop sleeps 10 seconds before every poll
attempt including the first (its event trace is a join of sleep-poll
blocks), exits the loop normally at the first response whose stateName
is Successful (after n+1 attempts when preceded by n non-terminal
responses, for every n, so no maximum iteration count exists), aborts
fatally at the first response whose stateName is Failed, keeps polling
with no terminal outcome on every all-non-terminal sequence, and in
particular the full run exits 0 after exactly 3 polls on the sequence
In Progress, In Progress, Successful and exits non-zero after exactly 2
polls on the sequence In Progress, Failed. -/
theorem claim1_status_poller :
    (∀ nets : List NetResult, ∃ k,
        (getRequestResultState nets).1 = (List.replicate k [Ev.sleep 10, Ev.poll]).flatten) ∧
    (∀ n : Nat,
        getRequestResultState (List.replicate n (pollResp "In Progress") ++ [pollResp "Successful"]) =
          ((List.replicate (n + 1) [Ev.sleep 10, Ev.poll]).flatten, some (Except.ok ()))) ∧
    (∀ (n : Nat) (rest : List NetResult),
        getRequestResultState (List.replicate n (pollResp "In Progress") ++ pollResp "Failed" :: rest) =
          ((List.replicate (n + 1) [Ev.sleep 10, Ev.poll]).flatten,
            some (Except.error (Abort.fatal
              "Error: Snapshot request failed, check the vRA portal for more info")))) ∧
    (∀ n : Nat,
        getRequestResultState (List.replicate n (pollResp "In Progress")) =
          ((List.replicate n [Ev.sleep 10, Ev.poll]).flatten, none)) ∧
    exitCode RunResult.ok = some 0 ∧
    (∀ m, exitCode (RunResult.fatal m) = some 1) ∧
    runPipeline goodCfg
        (goodEnv [pollResp "In Progress", pollResp "In Progress", pollResp "Successful"]) =
      (RunResult.ok,
        [ReqTag.auth, ReqTag.vmList, ReqTag.actions, ReqTag.submit,
          ReqTag.poll, ReqTag.poll, ReqTag.poll]) ∧
    runPipeline goodCfg (goodEnv [pollResp "In Progress", pollResp "Failed"]) =
      (RunResult.fatal "Error: Snapshot request failed, check the vRA portal for more info",
        [ReqTag.auth, ReqTag.vmList, ReqTag.actions, ReqTag.submit, ReqTag.poll, ReqTag.poll]) :=
  ⟨pollTrace_blocks, poller_succ_seq, poller_fail_seq, poller_inprogress,
    rfl, fun _ => rfl, rfl, rfl⟩

/-- C4: The snapshot request payload sets provider-deleteExisting to
false when keepExisting is set and to true when it is not, that is, the
payload factors as a fixed prefix, the JSON rendering of the negation
of keepExisting, a fixed middle, the tenant, and a fixed suffix — so
the two modes differ in the deleteExisting value only and all other
payload fields are identical. -/
theorem claim4_delete_existing_flag (keepExisting : Bool) (tenant : String) :
    sendSnapshotRequestBody keepExisting tenant =
      payloadPre ++ boolJson (!keepExisting) ++ payloadMid ++ tenant ++ payloadEnd := by
  cases keepExisting <;> rfl

/-- C9: Transport errors at the authentication, resource-lookup and
snapshot-request stages abort at once through logFatalError with a fatal
log (exit status 1); but at the action-lookup stage and inside the
status-polling loop a transport error is merely logged and execution
continues into the read of the nil response body, crashing with a
runtime panic (exit status 2) instead of aborting at the error check. -/
theorem claim9_transport_errors :
    (∀ (userName domain password tenant e : String)
        (decode : String → Except String GetBearerTokenResponse),
        getBearerToken userName domain password tenant (NetResult.fail e) decode =
          .error (.fatal ("Error: " ++ e))) ∧
    (∀ machine e : String,
        getVirtualMachineResourceID machine (NetResult.fail e) =
          .error (.fatal ("Error: " ++ e))) ∧
    (∀ e : String,
        sendSnapshotRequest (NetResult.fail e) = .error (.fatal ("Error: " ++ e))) ∧
    (∀ e : String,
        getSnapshotResourceActionID (NetResult.fail e) = .error .panicked) ∧
    (∀ e : String,
        pollStepOutcome (NetResult.fail e) = some (.error .panicked)) ∧
    exitCode RunResult.panicked = some 2 :=
  ⟨fun _ _ _ _ _ _ => rfl, fun _ _ => rfl, fun _ => rfl, fun _ => rfl, fun _ => rfl, rfl⟩

/-- C2: The resource lookup selects a catalog entry only when the
leftmost match decomposes the listing as the CatalogResource literal,
a 36-character id, the icon and resource-type-reference segment of the
virtual-machine pattern, a 3-character prefix and then exactly the
requested machine name closed by the description literal — so the name
after the prefix equals the machine name (name-equality, not mere
substring containment) — and for every listing with no match it fails
fatally with a diagnostic naming the machine.  The named-substring
demonstrations: the listing whose entry name is abcmyVMx (a strict
superstring) is rejected, the listing whose entry name is abcmyVM is
selected. -/
theorem claim2_resource_locator :
    (∀ (machine body id : String),
        '.' ∉ machine.data →
        findVMResourceID machine body = some id →
        id.length = 36 ∧ (∀ c ∈ id.data, c ≠ '\n') ∧
        ∃ pre seg2 p3 post,
          body.data =
            pre ++ vmLit1.data ++ id.data ++ seg2 ++ p3 ++ machine.data ++ vmLit3.data ++ post ∧
          patMatchesAt (regexLitPat vmLit2.data) seg2 = true ∧
          p3.length = 3) ∧
    (∀ (machine : String) (r : HttpResp),
        r.status = 200 →
        findVMResourceID machine r.body = none →
        getVirtualMachineResourceID machine (.resp r) =
          .error (.fatal ("Error: Unable to find Catalog Resource id for virtual machine \"" ++
            machine ++ "\""))) ∧
    findVMResourceID "myVM" demoVMBody = some demoID ∧
    findVMResourceID "myVM" demoSubstrBody = none ∧
    getVirtualMachineResourceID "myVM"
        (.resp { status := 200, location := "", body := demoSubstrBody }) =
      .error (.fatal "Error: Unable to find Catalog Resource id for virtual machine \"myVM\"") := by
  refine ⟨?_, ?_, rfl, rfl, rfl⟩
  · intro machine body id hdot hfind
    rw [findVMResourceID, Option.map_eq_some'] at hfind
    obtain ⟨idL, hscan, hmk⟩ := hfind
    obtain ⟨pre, t, hpt, htry⟩ := scanFirst_eq_some hscan
    obtain ⟨hlen, hnl, seg2, p3, post, hdec, hpat, hseglen, hp3len, hp3nl⟩ :=
      vmTry_eq_some hdot htry
    have hid : id.data = idL := by rw [← hmk]
    refine ⟨?_, ?_, pre, seg2, p3, post, ?_, hpat, hp3len⟩
    · show id.data.length = 36
      rw [hid]; exact hlen
    · rw [hid]; exact hnl
    · rw [hpt, hdec, hid]
      simp [List.append_assoc]
  · intro machine r h200 hnone
    simp [getVirtualMachineResourceID, h200, hnone]

/-- Witness for C2 at a concrete input: the listing demoVMBody with
machine name myVM satisfies the hypotheses, and the lookup returns the
36-character id together with the structural decomposition. -/
theorem claim2_witness :
    ('.' ∉ ("myVM" : String).data ∧ findVMResourceID "myVM" demoVMBody = some demoID) ∧
    (demoID.length = 36 ∧ (∀ c ∈ demoID.data, c ≠ '\n') ∧
      ∃ pre seg2 p3 post,
        demoVMBody.data =
          pre ++ vmLit1.data ++ demoID.data ++ seg2 ++ p3 ++ ("myVM" : String).data ++
            vmLit3.data ++ post ∧
        patMatchesAt (regexLitPat vmLit2.data) seg2 = true ∧
        p3.length = 3) :=
  ⟨⟨by decide, rfl⟩, claim2_resource_locator.1 "myVM" demoVMBody demoID (by decide) rfl⟩

theorem string_eq_empty_of_length {s : String} (h : s.length = 0) : s = "" := by
  cases s with
  | mk data =>
    rw [String.length] at h
    have hd : data = [] := List.length_eq_zero.mp h
    rw [hd]

/-- C7: The authenticator submits the username combined with the domain
in user-at-domain form; on a 200 response whose body decodes
successfully it fails fatally when the token id trims to the empty
string and otherwise returns the string Bearer followed by the token. -/
theorem claim7_authenticator :
    (∀ userName domain password tenant : String,
        getBearerTokenRequestVars userName domain password tenant =
          { Username := userName ++ "@" ++ domain, Password := password, Tenant := tenant }) ∧
    (∀ (userName domain password tenant : String) (r : HttpResp)
        (decode : String → Except String GetBearerTokenResponse) (g : GetBearerTokenResponse),
        r.status = 200 →
        decode r.body = .ok g →
        (goTrimSpace g.ID = "" →
          getBearerToken userName domain password tenant (.resp r) decode =
            .error (.fatal "Error: zero-length string `bearerToken`")) ∧
        (goTrimSpace g.ID ≠ "" →
          getBearerToken userName domain password tenant (.resp r) decode =
            .ok ("Bearer " ++ g.ID))) := by
  refine ⟨fun _ _ _ _ => rfl, ?_⟩
  intro userName domain password tenant r decode g h200 hdec
  constructor
  · intro hz
    simp [getBearerToken, h200, hdec, exitOnEmptyString, hz]
  · intro hnz
    have hlen : (goTrimSpace g.ID).length ≠ 0 := fun hh => hnz (string_eq_empty_of_length hh)
    simp [getBearerToken, h200, hdec, exitOnEmptyString, hlen]

/-- Witness for C7 at a concrete input: a 200 response decoded by
demoDecode carries the non-empty token TOKEN123 and the stage returns
the Bearer credential. -/
theorem claim7_witness :
    (({ status := 200, location := "", body := "x" } : HttpResp).status = 200 ∧
      demoDecode "x" = .ok { Expires := "2019-05-01", ID := "TOKEN123", Tenant := "tenantA" } ∧
      goTrimSpace "TOKEN123" ≠ "") ∧
    getBearerToken "user" "dom" "pw" "tenantA"
        (.resp { status := 200, location := "", body := "x" }) demoDecode =
      .ok ("Bearer " ++ "TOKEN123") :=
  ⟨⟨rfl, rfl, by decide⟩,
    (claim7_authenticator.2 "user" "dom" "pw" "tenantA"
        { status := 200, location := "", body := "x" } demoDecode
        { Expires := "2019-05-01", ID := "TOKEN123", Tenant := "tenantA" } rfl rfl).2
      (by decide)⟩

theorem exitOnEmptyString_empty {n v : String} (h : goTrimSpace v = "") :
    exitOnEmptyString n v = .error (.fatal ("Error: zero-length string `" ++ n ++ "`")) := by
  rw [exitOnEmptyString, if_pos (by rw [h]; rfl)]

theorem exitOnEmptyString_error_shape {n v : String} {a : Abort}
    (h : exitOnEmptyString n v = .error a) : ∃ m, a = .fatal m := by
  by_cases hl : (goTrimSpace v).length = 0
  · rw [exitOnEmptyString, if_pos hl] at h
    injection h with h'
    exact ⟨_, h'.symm⟩
  · rw [exitOnEmptyString, if_neg hl] at h
    exact absurd h (by simp)

theorem validateConfig_fatal_of_empty {cfg : Config}
    (hbad : goTrimSpace cfg.baseURL = "" ∨ goTrimSpace cfg.tenant = "" ∨
      goTrimSpace cfg.domain = "" ∨ goTrimSpace cfg.userName = "" ∨
      goTrimSpace cfg.password = "") :
    ∃ m, validateConfig cfg = .error (.fatal m) := by
  by_cases hex : cfg.configFileExists
  · rw [validateConfig, if_pos hex]
    cases h1 : exitOnEmptyString "baseURL" cfg.baseURL with
    | error a =>
      obtain ⟨m, hm⟩ := exitOnEmptyString_error_shape h1
      exact ⟨m, by rw [hm]⟩
    | ok u1 =>
      cases h2 : exitOnEmptyString "tenant" cfg.tenant with
      | error a =>
        obtain ⟨m, hm⟩ := exitOnEmptyString_error_shape h2
        exact ⟨m, by rw [hm]⟩
      | ok u2 =>
        cases h3 : exitOnEmptyString "domain" cfg.domain with
        | error a =>
          obtain ⟨m, hm⟩ := exitOnEmptyString_error_shape h3
          exact ⟨m, by rw [hm]⟩
        | ok u3 =>
          cases h4 : exitOnEmptyString "userName" cfg.userName with
          | error a =>
            obtain ⟨m, hm⟩ := exitOnEmptyString_error_shape h4
            exact ⟨m, by rw [hm]⟩
          | ok u4 =>
            rcases hbad with h | h | h | h | h
            · rw [exitOnEmptyString_empty h] at h1; exact absurd h1 (by simp)
            · rw [exitOnEmptyString_empty h] at h2; exact absurd h2 (by simp)
            · rw [exitOnEmptyString_empty h] at h3; exact absurd h3 (by simp)
            · rw [exitOnEmptyString_empty h] at h4; exact absurd h4 (by simp)
            · exact ⟨_, exitOnEmptyString_empty h⟩
  · exact ⟨_, by rw [validateConfig, if_neg hex]⟩

/-- C6: Whenever any of the five configuration values baseURL, tenant,
domain, userName, password trims to the empty string, the run
terminates with a fatal log (non-zero exit status) having issued no
HTTP request at all. -/
theorem claim6_config_validation :
    ∀ (cfg : Config) (env : Env),
      (goTrimSpace cfg.baseURL = "" ∨ goTrimSpace cfg.tenant = "" ∨
        goTrimSpace cfg.domain = "" ∨ goTrimSpace cfg.userName = "" ∨
        goTrimSpace cfg.password = "") →
      (∃ m, (runPipeline cfg env).1 = RunResult.fatal m) ∧ (runPipeline cfg env).2 = [] := by
  intro cfg env hbad
  obtain ⟨m, hm⟩ := validateConfig_fatal_of_empty hbad
  constructor
  · exact ⟨m, by simp [runPipeline, hm, abortResult]⟩
  · simp [runPipeline, hm]

/-- Witness for C6 at a concrete input: the configuration whose password
is a single space fails fatally with an empty request log. -/
theorem claim6_witness :
    goTrimSpace cfgNoPass.password = "" ∧
    ((∃ m, (runPipeline cfgNoPass (goodEnv [])).1 = RunResult.fatal m) ∧
      (runPipeline cfgNoPass (goodEnv [])).2 = []) :=
  ⟨by decide,
    claim6_config_validation cfgNoPass (goodEnv [])
      (Or.inr (Or.inr (Or.inr (Or.inr (by decide)))))⟩

theorem isAbort_abortResult (a : Abort) : isAbort (abortResult a) = true := by
  cases a <;> rfl

theorem sendSnapshotRequest_non201 {r : HttpResp} (h : r.status ≠ 201) :
    ∃ a, sendSnapshotRequest (.resp r) = .error a := by
  rw [sendSnapshotRequest]
  cases hh : extractH1 r.body with
  | some t => exact ⟨.fatal ("Error: " ++ t), by simp [h, hh]⟩
  | none => exact ⟨.panicked, by simp [h, hh]⟩

/-- C3: The submitter treats exactly status 201 as success: every other
status aborts (fatally or through the panic of the missing h1 title),
and in the full pipeline a non-201 submission response yields a
non-zero terminated run in which no poll request is ever issued; a 201
response returns the Location header value, failing fatally when it
trims to the empty string. -/
theorem claim3_request_submitter :
    (∀ r : HttpResp, r.status ≠ 201 → ∃ a, sendSnapshotRequest (.resp r) = .error a) ∧
    (∀ r : HttpResp, r.status = 201 → goTrimSpace r.location = "" →
        sendSnapshotRequest (.resp r) =
          .error (.fatal "Error: zero-length string `Resource Action Request URL`")) ∧
    (∀ r : HttpResp, r.status = 201 → goTrimSpace r.location ≠ "" →
        sendSnapshotRequest (.resp r) = .ok r.location) ∧
    (∀ (cfg : Config) (env : Env) (r : HttpResp),
        cfg.dryRun = false → env.submitNet = .resp r → r.status ≠ 201 →
        isAbort (runPipeline cfg env).1 = true ∧ ReqTag.poll ∉ (runPipeline cfg env).2) := by
  refine ⟨fun r h => sendSnapshotRequest_non201 h, ?_, ?_, ?_⟩
  · intro r h201 hloc
    simp [sendSnapshotRequest, h201, exitOnEmptyString, hloc]
  · intro r h201 hloc
    have hlen : (goTrimSpace r.location).length ≠ 0 :=
      fun hh => hloc (string_eq_empty_of_length hh)
    simp [sendSnapshotRequest, h201, exitOnEmptyString, hlen]
  · intro cfg env r hdry hsub h201
    obtain ⟨a5, ha5⟩ : ∃ a, sendSnapshotRequest env.submitNet = .error a := by
      rw [hsub]; exact sendSnapshotRequest_non201 h201
    rw [runPipeline]
    cases h1 : validateConfig cfg with
    | error a => exact ⟨isAbort_abortResult a, (by decide : ReqTag.poll ∉ ([] : List ReqTag))⟩
    | ok u =>
      cases h2 : getBearerToken cfg.userName cfg.domain cfg.password cfg.tenant
          env.authNet env.authDecode with
      | error a =>
        exact ⟨isAbort_abortResult a, (by decide : ReqTag.poll ∉ [ReqTag.auth])⟩
      | ok tok =>
        cases h3 : getVirtualMachineResourceID cfg.machineName env.vmNet with
        | error a =>
          exact ⟨isAbort_abortResult a, (by decide : ReqTag.poll ∉ [ReqTag.auth, ReqTag.vmList])⟩
        | ok vm =>
          cases h4 : getSnapshotResourceActionID env.actionNet with
          | error a =>
            exact ⟨isAbort_abortResult a,
              (by decide : ReqTag.poll ∉ [ReqTag.auth, ReqTag.vmList, ReqTag.actions])⟩
          | ok act =>
            rw [hdry]
            simp only [Bool.false_eq_true, if_false, ha5]
            exact ⟨isAbort_abortResult a5,
              (by decide :
                ReqTag.poll ∉ [ReqTag.auth, ReqTag.vmList, ReqTag.actions, ReqTag.submit])⟩

/-- Witness for C3 at a concrete input: with a 403 submission response
the run terminates abnormally and the request log holds no poll. -/
theorem claim3_witness :
    (goodCfg.dryRun = false ∧
      envNon201.submitNet = .resp { status := 403, location := "", body := "<h1>denied</h1>" } ∧
      (403 : Nat) ≠ 201) ∧
    (isAbort (runPipeline goodCfg envNon201).1 = true ∧
      ReqTag.poll ∉ (runPipeline goodCfg envNon201).2) :=
  ⟨⟨rfl, rfl, by decide⟩,
    claim3_request_submitter.2.2.2 goodCfg envNon201
      { status := 403, location := "", body := "<h1>denied</h1>" } rfl rfl (by decide)⟩

/-- C5: Under dry-run the pipeline never issues the stage-5 submission
request nor any stage-6 poll request, and whenever validation and
stages 1 to 3 succeed (stage 4 is a no-op) the run ends with outcome
ok, exit status 0, having issued exactly the three read-only
requests. -/
theorem claim5_dry_run :
    (∀ (cfg : Config) (env : Env), cfg.dryRun = true →
        ReqTag.submit ∉ (runPipeline cfg env).2 ∧ ReqTag.poll ∉ (runPipeline cfg env).2) ∧
    (∀ (cfg : Config) (env : Env) (tok vm act : String),
        cfg.dryRun = true →
        validateConfig cfg = .ok () →
        getBearerToken cfg.userName cfg.domain cfg.password cfg.tenant
          env.authNet env.authDecode = .ok tok →
        getVirtualMachineResourceID cfg.machineName env.vmNet = .ok vm →
        getSnapshotResourceActionID env.actionNet = .ok act →
        runPipeline cfg env = (RunResult.ok, [ReqTag.auth, ReqTag.vmList, ReqTag.actions])) := by
  constructor
  · intro cfg env hdry
    rw [runPipeline]
    cases h1 : validateConfig cfg with
    | error a =>
      exact ⟨(by decide : ReqTag.submit ∉ ([] : List ReqTag)),
        (by decide : ReqTag.poll ∉ ([] : List ReqTag))⟩
    | ok u =>
      cases h2 : getBearerToken cfg.userName cfg.domain cfg.password cfg.tenant
          env.authNet env.authDecode with
      | error a =>
        exact ⟨(by decide : ReqTag.submit ∉ [ReqTag.auth]),
          (by decide : ReqTag.poll ∉ [ReqTag.auth])⟩
      | ok tok =>
        cases h3 : getVirtualMachineResourceID cfg.machineName env.vmNet with
        | error a =>
          exact ⟨(by decide : ReqTag.submit ∉ [ReqTag.auth, ReqTag.vmList]),
            (by decide : ReqTag.poll ∉ [ReqTag.auth, ReqTag.vmList])⟩
        | ok vm =>
          cases h4 : getSnapshotResourceActionID env.actionNet with
          | error a =>
            exact ⟨(by decide : ReqTag.submit ∉ [ReqTag.auth, ReqTag.vmList, ReqTag.actions]),
              (by decide : ReqTag.poll ∉ [ReqTag.auth, ReqTag.vmList, ReqTag.actions])⟩
          | ok act =>
            rw [hdry]
            exact ⟨(by decide : ReqTag.submit ∉ [ReqTag.auth, ReqTag.vmList, ReqTag.actions]),
              (by decide : ReqTag.poll ∉ [ReqTag.auth, ReqTag.vmList, ReqTag.actions])⟩
  · intro cfg env tok vm act hdry hval htok hvm hact
    rw [runPipeline, hval, htok, hvm, hact, hdry]
    rfl

/-- Witness for C5 at a concrete input: the valid configuration with
dry-run set, in the environment in which stages 1 to 3 succeed, ends
with outcome ok and exactly the three read-only requests. -/
theorem claim5_witness :
    (({ goodCfg with dryRun := true } : Config).dryRun = true ∧
      validateConfig { goodCfg with dryRun := true } = .ok () ∧
      getBearerToken "user" "dom" "pw" "tenantA" (goodEnv []).authNet (goodEnv []).authDecode =
        .ok "Bearer TOKEN123" ∧
      getVirtualMachineResourceID "myVM" (goodEnv []).vmNet = .ok demoID ∧
      getSnapshotResourceActionID (goodEnv []).actionNet = .ok "act-42") ∧
    runPipeline { goodCfg with dryRun := true } (goodEnv []) =
      (RunResult.ok, [ReqTag.auth, ReqTag.vmList, ReqTag.actions]) :=
  ⟨⟨rfl, rfl, rfl, rfl, rfl⟩,
    claim5_dry_run.2 { goodCfg with dryRun := true } (goodEnv [])
      "Bearer TOKEN123" demoID "act-42" rfl rfl rfl rfl rfl⟩

/-- C10: Each regex extraction is total exactly on the bodies holding a
match of its pattern — the submatch-slice index is in bounds only under
that precondition — and on every body without a match the unguarded
index access panics: the poll step on a body with no stateName match,
the authentication error path on a non-200 body with no systemMessage
match, and the submission error path on a non-201 body with no h1
match, all end in the panic outcome. -/
theorem claim10_partial_extraction :
    (∀ body : String,
        (extractStateName body).isSome = true ↔ hasLGLMatch stateNameLit ['"'] body) ∧
    (∀ body : String,
        (extractSystemMessage body).isSome = true ↔ hasLGLMatch sysMsgLit1 sysMsgLit2 body) ∧
    (∀ body : String,
        (extractH1 body).isSome = true ↔ hasLGLMatch h1Lit1 h1Lit2 body) ∧
    (∀ (status : Nat) (loc body : String),
        extractStateName body = none →
        pollStepOutcome (.resp { status := status, location := loc, body := body }) =
          some (.error .panicked)) ∧
    (∀ (userName domain password tenant : String)
        (decode : String → Except String GetBearerTokenResponse)
        (status : Nat) (loc body : String),
        status ≠ 200 →
        extractSystemMessage body = none →
        getBearerToken userName domain password tenant
            (.resp { status := status, location := loc, body := body }) decode =
          .error .panicked) ∧
    (∀ (status : Nat) (loc body : String),
        status ≠ 201 →
        extractH1 body = none →
        sendSnapshotRequest (.resp { status := status, location := loc, body := body }) =
          .error .panicked) := by
  refine ⟨fun _ => extractStateName_isSome_iff, fun _ => extractSystemMessage_isSome_iff,
    fun _ => extractH1_isSome_iff, ?_, ?_, ?_⟩
  · intro status loc body hnone
    simp [pollStepOutcome, hnone]
  · intro userName domain password tenant decode status loc body hstat hnone
    simp [getBearerToken, hstat, hnone]
  · intro status loc body hstat hnone
    simp [sendSnapshotRequest, hstat, hnone]

/-- Witness for C10 at concrete inputs: bodies without the respective
patterns make the extractions return none and drive the poll step, the
authentication error path and the submission error path into the panic
outcome. -/
theorem claim10_witness :
    extractStateName "\x7b\x7d" = none ∧
    pollStepOutcome (.resp { status := 200, location := "", body := "\x7b\x7d" }) =
      some (.error .panicked) ∧
    extractSystemMessage "oops" = none ∧ (500 : Nat) ≠ 200 ∧
    getBearerToken "u" "d" "p" "t" (.resp { status := 500, location := "", body := "oops" })
        demoDecode = .error .panicked ∧
    extractH1 "bad gateway" = none ∧ (502 : Nat) ≠ 201 ∧
    sendSnapshotRequest (.resp { status := 502, location := "", body := "bad gateway" }) =
      .error .panicked :=
  ⟨rfl,
    claim10_partial_extraction.2.2.2.1 200 "" "\x7b\x7d" rfl,
    rfl, by decide,
    claim10_partial_extraction.2.2.2.2.1 "u" "d" "p" "t" demoDecode 500 "" "oops"
      (by decide) rfl,
    rfl, by decide,
    claim10_partial_extraction.2.2.2.2.2 502 "" "bad gateway" (by decide) rfl⟩

/-- Counterexample for C8 as stated: the listing demoCIBody holds an
entry whose name matches the requested machine name myvm
case-insensitively (the spec-modelled case-insensitive lookup finds
it), yet with every boolean option the program registers set the run
still fails with the not-found diagnostic — no option of the program
enables case-insensitive matching. -/
theorem claim8_counterexample :
    findVMResourceID_ci "myvm" demoCIBody = some demoID ∧
    findVMResourceID "myvm" demoCIBody = none ∧
    cfgAllFlags.dryRun = true ∧ cfgAllFlags.keepExisting = true ∧ cfgAllFlags.trace = true ∧
    runPipeline cfgAllFlags envCI =
      (RunResult.fatal "Error: Unable to find Catalog Resource id for virtual machine \"myvm\"",
        [ReqTag.auth, ReqTag.vmList]) :=
  ⟨rfl, rfl, rfl, rfl, rfl, rfl⟩

/-- C8 (amended): Resource lookup by machine name is always
case-sensitive; when the listing holds no case-sensitive match the run
fails with a not-found diagnostic naming the machine; the program
registers no case-insensitivity option, so a name matching only
case-insensitively is never found. -/
theorem claim8_amended_case_sensitivity :
    (∀ (machine : String) (r : HttpResp),
        r.status = 200 →
        findVMResourceID machine r.body = none →
        getVirtualMachineResourceID machine (.resp r) =
          .error (.fatal ("Error: Unable to find Catalog Resource id for virtual machine \"" ++
            machine ++ "\""))) ∧
    findVMResourceID "myvm" demoCIBody = none ∧
    findVMResourceID_ci "myvm" demoCIBody = some demoID := by
  refine ⟨?_, rfl, rfl⟩
  intro machine r h200 hnone
  simp [getVirtualMachineResourceID, h200, hnone]

/-- Witness for the amended C8 at a concrete input: the machine name
ghost has no match in demoCIBody and the lookup stage fails with the
not-found diagnostic naming it. -/
theorem claim8_witness :
    (({ status := 200, location := "", body := demoCIBody } : HttpResp).status = 200 ∧
      findVMResourceID "ghost" demoCIBody = none) ∧
    getVirtualMachineResourceID "ghost"
        (.resp { status := 200, location := "", body := demoCIBody }) =
      .error (.fatal "Error: Unable to find Catalog Resource id for virtual machine \"ghost\"") :=
  ⟨⟨rfl, rfl⟩,
    claim8_amended_case_sensitivity.1 "ghost"
      { status := 200, location := "", body := demoCIBody } rfl rfl⟩

end MakeSnapshot
